import Mathlib

/-!
Verification of the MaterGui record admission pipeline
(src/main.py together with src/schemas.py).

Embedding conventions:
* a raw JSON field of a request body is a `PField` value, distinguishing an
  absent field, an explicit null, and a typed value;
* each pydantic model of src/schemas.py is a Lean structure together with a
  validator returning `Except String _`, mirroring the declared field
  constraints and defaults in declaration order;
* the Mongo database handle is `Option Store`; a `Store` keeps one
  association list of (storage id, document) pairs per collection.  The
  generic gateway `create_document` lives in database.py, which is not part
  of src/, so inserts are modelled from the spec as an append returning a
  fresh storage identifier;
* every HTTP handler of src/main.py is a total function from the database
  handle and the raw body to a response (`Except HTTPError _`) and the new
  database state.  The surrounding framework validates the body and turns a
  validation failure into a 422 response before the handler body runs, which
  the `handle…` wrappers reproduce.
-/

namespace MaterGui

/-- Raw state of one field of a JSON request body: absent, explicit null,
or a typed value. -/
inductive PField (α : Type) where
  | absent : PField α
  | null : PField α
  | val : α → PField α
deriving DecidableEq

/-- A calendar date, as python's datetime.date. -/
structure PyDate where
  year : Nat
  month : Nat
  day : Nat
deriving DecidableEq

/-- A timestamp, as python's datetime.datetime. -/
structure PyDateTime where
  date : PyDate
  hour : Nat
  minute : Nat
  second : Nat
deriving DecidableEq

/-- A fastapi HTTPException: status code and detail message. -/
structure HTTPError where
  status : Nat
  detail : String
deriving DecidableEq

/-- Status code of a response: 200 on success, the error status otherwise. -/
def respStatus {α : Type} (r : Except HTTPError α) : Nat :=
  match r with
  | .ok _ => 200
  | .error e => e.status

/-- Decimal digit character of n mod 10. -/
def digitChar (n : Nat) : Char := Char.ofNat (48 + n % 10)

/-- Four-digit zero-padded decimal rendering, as CPython's strftime directive
for the year applied to a year below 10000 (datetime.utcnow always yields a
four-digit year). -/
def fmt4 (n : Nat) : String :=
  String.mk [digitChar (n / 1000), digitChar (n / 100), digitChar (n / 10), digitChar n]

/-- Two-digit zero-padded decimal rendering, as strftime renders month and day. -/
def fmt2 (n : Nat) : String := String.mk [digitChar (n / 10), digitChar n]

/-- Six-digit zero-padded decimal rendering, as the python format spec 06d
applied to a value below 1000000 (secrets.randbelow guarantees the bound). -/
def fmt6 (n : Nat) : String :=
  String.mk [digitChar (n / 100000), digitChar (n / 10000), digitChar (n / 1000),
    digitChar (n / 100), digitChar (n / 10), digitChar n]

/-- strftime of the current UTC date with format YYYYMMDD (src/main.py line 26). -/
def formatYYYYMMDD (d : PyDate) : String := fmt4 d.year ++ fmt2 d.month ++ fmt2 d.day

/-- src/main.py lines 25-29, generate_matergui_id: `today` is the current UTC
date and `r` the value drawn by secrets.randbelow of one million. -/
def generate_matergui_id (today : PyDate) (r : Nat) : String :=
  "MGU-" ++ formatYYYYMMDD today ++ "-" ++ fmt6 r

/-- Hexadecimal digit test, as bson's ObjectId string parsing accepts. -/
def isHexChar (c : Char) : Bool :=
  c.isDigit || ('a' ≤ c && c ≤ 'f') || ('A' ≤ c && c ≤ 'F')

/-- bson.ObjectId applied to a string succeeds exactly when the string is 24
hexadecimal characters; this is the store's native identifier format. -/
def isValidObjectId (s : String) : Bool :=
  s.data.length == 24 && s.data.all isHexChar

/-- Lower-casing of one ASCII character. -/
def charLower (c : Char) : Char :=
  if 'A' ≤ c ∧ c ≤ 'Z' then Char.ofNat (c.toNat + 32) else c

/-- ObjectId equality is on the underlying bytes, hence case-insensitive on
the hex spelling; normalise to lower case for lookup. -/
def objectIdNorm (s : String) : String := String.mk (s.data.map charLower)

/-- Field validator: a required field of any type (absent and null are
rejected by pydantic for a non optional annotation). -/
def vRequired {α : Type} (name : String) (f : PField α) : Except String α :=
  match f with
  | .val a => .ok a
  | _ => .error (name ++ ": field required")

/-- Field validator: an optional unconstrained field with default None. -/
def vOpt {α : Type} (f : PField α) : Option α :=
  match f with
  | .val a => some a
  | _ => none

/-- Field validator: a Literal enumeration with a default; pydantic rejects
null and any value outside the closed set. -/
def vEnum (name : String) (allowed : List String) (dflt : String) (f : PField String) :
    Except String String :=
  match f with
  | .absent => .ok dflt
  | .null => .error (name ++ ": null is not a permitted literal")
  | .val s =>
    match allowed.contains s with
    | true => .ok s
    | false => .error (name ++ ": unexpected literal value")

/-- Field validator: Optional int with a numeric default and a lower bound
(pydantic Field ge); an explicit null passes as None and skips the bound. -/
def vOptIntGe (name : String) (dflt lo : Int) (f : PField Int) : Except String (Option Int) :=
  match f with
  | .absent => .ok (some dflt)
  | .null => .ok none
  | .val n => if lo ≤ n then .ok (some n) else .error (name ++ ": out of range")

/-- Field validator: Optional int with default None and bounds ge/le. -/
def vOptIntRange (name : String) (lo hi : Int) (f : PField Int) : Except String (Option Int) :=
  match f with
  | .absent => .ok none
  | .null => .ok none
  | .val n => if lo ≤ n ∧ n ≤ hi then .ok (some n) else .error (name ++ ": out of range")

/-- Field validator: Optional float with default None and bounds ge/le; the
payload number is modelled exactly as a rational. -/
def vOptRatRange (name : String) (lo hi : Rat) (f : PField Rat) : Except String (Option Rat) :=
  match f with
  | .absent => .ok none
  | .null => .ok none
  | .val q => if lo ≤ q ∧ q ≤ hi then .ok (some q) else .error (name ++ ": out of range")

/-- Field validator: a required date with a default factory (Visit.visit_date);
null is rejected since the annotation is not Optional. -/
def vDateDefault (name : String) (dflt : PyDate) (f : PField PyDate) : Except String PyDate :=
  match f with
  | .absent => .ok dflt
  | .null => .error (name ++ ": null is not an allowed value")
  | .val d => .ok d

/-- src/schemas.py lines 34-45, model Patient. -/
structure Patient where
  matergui_id : Option String
  first_name : String
  last_name : String
  date_of_birth : Option PyDate
  phone : Option String
  address : Option String
  national_id : Option String
  facility_id : Option String
  face_template_id : Option String
  fingerprint_template_id : Option String
deriving DecidableEq

/-- Raw body of POST /patients. -/
structure RawPatient where
  matergui_id : PField String
  first_name : PField String
  last_name : PField String
  date_of_birth : PField PyDate
  phone : PField String
  address : PField String
  national_id : PField String
  facility_id : PField String
  face_template_id : PField String
  fingerprint_template_id : PField String
deriving DecidableEq

/-- pydantic validation of a Patient body, in field declaration order. -/
def validatePatient (raw : RawPatient) : Except String Patient := do
  let fn ← vRequired "first_name" raw.first_name
  let ln ← vRequired "last_name" raw.last_name
  Except.ok
    { matergui_id := vOpt raw.matergui_id, first_name := fn, last_name := ln,
      date_of_birth := vOpt raw.date_of_birth, phone := vOpt raw.phone,
      address := vOpt raw.address, national_id := vOpt raw.national_id,
      facility_id := vOpt raw.facility_id, face_template_id := vOpt raw.face_template_id,
      fingerprint_template_id := vOpt raw.fingerprint_template_id }

/-- src/schemas.py lines 47-54, model Pregnancy. -/
structure Pregnancy where
  patient_id : String
  lmp : Option PyDate
  expected_due_date : Option PyDate
  parity : Option Int
  gravida : Option Int
  risk_level : String
  status : String
deriving DecidableEq

/-- Raw body of POST /pregnancies. -/
structure RawPregnancy where
  patient_id : PField String
  lmp : PField PyDate
  expected_due_date : PField PyDate
  parity : PField Int
  gravida : PField Int
  risk_level : PField String
  status : PField String
deriving DecidableEq

/-- pydantic validation of a Pregnancy body: patient_id required, parity
Optional int ge 0 default 0, gravida Optional int ge 1 default 1, enums
risk_level and status with their defaults. -/
def validatePregnancy (raw : RawPregnancy) : Except String Pregnancy := do
  let pid ← vRequired "patient_id" raw.patient_id
  let par ← vOptIntGe "parity" 0 0 raw.parity
  let grav ← vOptIntGe "gravida" 1 1 raw.gravida
  let risk ← vEnum "risk_level" ["faible", "modere", "eleve"] "faible" raw.risk_level
  let st ← vEnum "status" ["en_cours", "accouchement", "terminee"] "en_cours" raw.status
  Except.ok
    { patient_id := pid, lmp := vOpt raw.lmp,
      expected_due_date := vOpt raw.expected_due_date,
      parity := par, gravida := grav, risk_level := risk, status := st }

/-- src/schemas.py lines 56-66, model Visit. -/
structure Visit where
  pregnancy_id : String
  visit_date : PyDate
  blood_pressure_systolic : Option Int
  blood_pressure_diastolic : Option Int
  weight_kg : Option Rat
  fundal_height_cm : Option Rat
  foetal_heart_rate : Option Int
  symptoms : Option String
  notes : Option String
  prescriptions : Option (List String)
deriving DecidableEq

/-- Raw body of POST /visits. -/
structure RawVisit where
  pregnancy_id : PField String
  visit_date : PField PyDate
  blood_pressure_systolic : PField Int
  blood_pressure_diastolic : PField Int
  weight_kg : PField Rat
  fundal_height_cm : PField Rat
  foetal_heart_rate : PField Int
  symptoms : PField String
  notes : PField String
  prescriptions : PField (List String)
deriving DecidableEq

/-- pydantic validation of a Visit body: the five vitals are optional but
range-checked when a value is present; visit_date defaults to today. -/
def validateVisit (raw : RawVisit) (today : PyDate) : Except String Visit := do
  let pid ← vRequired "pregnancy_id" raw.pregnancy_id
  let vd ← vDateDefault "visit_date" today raw.visit_date
  let sys ← vOptIntRange "blood_pressure_systolic" 50 250 raw.blood_pressure_systolic
  let dia ← vOptIntRange "blood_pressure_diastolic" 30 150 raw.blood_pressure_diastolic
  let wkg ← vOptRatRange "weight_kg" 20 250 raw.weight_kg
  let fh ← vOptRatRange "fundal_height_cm" 0 60 raw.fundal_height_cm
  let fhr ← vOptIntRange "foetal_heart_rate" 60 200 raw.foetal_heart_rate
  Except.ok
    { pregnancy_id := pid, visit_date := vd, blood_pressure_systolic := sys,
      blood_pressure_diastolic := dia, weight_kg := wkg, fundal_height_cm := fh,
      foetal_heart_rate := fhr, symptoms := vOpt raw.symptoms,
      notes := vOpt raw.notes, prescriptions := vOpt raw.prescriptions }

/-- src/schemas.py lines 68-72, model Appointment. -/
structure Appointment where
  patient_id : String
  appointment_date : PyDateTime
  reason : Option String
  status : String
deriving DecidableEq

/-- Raw body of POST /appointments. -/
structure RawAppointment where
  patient_id : PField String
  appointment_date : PField PyDateTime
  reason : PField String
  status : PField String
deriving DecidableEq

/-- pydantic validation of an Appointment body. -/
def validateAppointment (raw : RawAppointment) : Except String Appointment := do
  let pid ← vRequired "patient_id" raw.patient_id
  let ad ← vRequired "appointment_date" raw.appointment_date
  let st ← vEnum "status" ["planifie", "honore", "annule", "manque"] "planifie" raw.status
  Except.ok { patient_id := pid, appointment_date := ad, reason := vOpt raw.reason, status := st }

/-- src/schemas.py lines 74-78, model Alert. -/
structure Alert where
  patient_id : String
  type : String
  message : String
  created_by : Option String
deriving DecidableEq

/-- Raw body of POST /alerts. -/
structure RawAlert where
  patient_id : PField String
  type : PField String
  message : PField String
  created_by : PField String
deriving DecidableEq

/-- pydantic validation of an Alert body: patient_id and message are required
strings (any string, the empty one included), type is a closed enumeration
with default rappel. -/
def validateAlert (raw : RawAlert) : Except String Alert := do
  let pid ← vRequired "patient_id" raw.patient_id
  let ty ← vEnum "type" ["urgence", "rappel", "risque"] "rappel" raw.type
  let msg ← vRequired "message" raw.message
  Except.ok { patient_id := pid, type := ty, message := msg, created_by := vOpt raw.created_by }

/-- The document store: one association list of (storage id, document) pairs
per collection touched by the admission pipeline, plus a counter abstracting
the store's storage-identifier assignment. -/
structure Store where
  patient : List (String × Patient)
  pregnancy : List (String × Pregnancy)
  visit : List (String × Visit)
  appointment : List (String × Appointment)
  alert : List (String × Alert)
  nextId : Nat
deriving DecidableEq

/-- Modelled from the spec: the storage identifier the document store assigns
upon insert (database.py is not under src/); abstracted as a counter. -/
def newStorageId (s : Store) : String := Nat.repr s.nextId

/-- Modelled from the spec: create_document of the Document Store Gateway for
the patient collection — insert one validated document, return its storage id. -/
def insertPatient (s : Store) (p : Patient) : String × Store :=
  (newStorageId s,
   { s with patient := s.patient ++ [(newStorageId s, p)], nextId := s.nextId + 1 })

/-- Modelled from the spec: create_document for the pregnancy collection. -/
def insertPregnancy (s : Store) (p : Pregnancy) : String × Store :=
  (newStorageId s,
   { s with pregnancy := s.pregnancy ++ [(newStorageId s, p)], nextId := s.nextId + 1 })

/-- Modelled from the spec: create_document for the visit collection. -/
def insertVisit (s : Store) (v : Visit) : String × Store :=
  (newStorageId s,
   { s with visit := s.visit ++ [(newStorageId s, v)], nextId := s.nextId + 1 })

/-- Modelled from the spec: create_document for the appointment collection. -/
def insertAppointment (s : Store) (a : Appointment) : String × Store :=
  (newStorageId s,
   { s with appointment := s.appointment ++ [(newStorageId s, a)], nextId := s.nextId + 1 })

/-- Modelled from the spec: create_document for the alert collection. -/
def insertAlert (s : Store) (a : Alert) : String × Store :=
  (newStorageId s,
   { s with alert := s.alert ++ [(newStorageId s, a)], nextId := s.nextId + 1 })

/-- find_one on the patient collection with an _id equality filter. -/
def findPatient (s : Store) (oid : String) : Option (String × Patient) :=
  s.patient.find? (fun d => d.1 == oid)

/-- find_one on the pregnancy collection with an _id equality filter. -/
def findPregnancy (s : Store) (oid : String) : Option (String × Pregnancy) :=
  s.pregnancy.find? (fun d => d.1 == oid)

/-- The HTTPException raised by ensure_db (src/main.py lines 32-34). -/
def dbUnavailable : HTTPError :=
  ⟨500, "Database not available. Ensure DATABASE_URL and DATABASE_NAME are set."⟩

/-- src/main.py lines 89-97, endpoint body of POST /patients: ensure_db, then
generate a matergui_id when the supplied one is falsy (absent or empty),
then insert; returns the storage id and the public id. -/
def create_patient (db : Option Store) (payload : Patient) (today : PyDate) (r : Nat) :
    Except HTTPError (String × String) × Option Store :=
  match db with
  | none => (.error dbUnavailable, none)
  | some store =>
    let mid :=
      match payload.matergui_id with
      | none => generate_matergui_id today r
      | some s => if s = "" then generate_matergui_id today r else s
    let res := insertPatient store { payload with matergui_id := some mid }
    (.ok (res.1, mid), some res.2)

/-- Full request pipeline of POST /patients: framework body validation (a 422
response on failure) and then the endpoint body. -/
def handleCreatePatient (db : Option Store) (raw : RawPatient) (today : PyDate) (r : Nat) :
    Except HTTPError (String × String) × Option Store :=
  match validatePatient raw with
  | .error e => (.error ⟨422, e⟩, db)
  | .ok payload => create_patient db payload today r

/-- src/main.py lines 114-128, endpoint body of POST /pregnancies: ensure_db,
then parse patient_id as an ObjectId (a 400 response when malformed), then
find_one on the patient collection (a 404 response when no document matches),
then insert. -/
def create_pregnancy (db : Option Store) (payload : Pregnancy) :
    Except HTTPError String × Option Store :=
  match db with
  | none => (.error dbUnavailable, none)
  | some store =>
    if isValidObjectId payload.patient_id then
      match findPatient store (objectIdNorm payload.patient_id) with
      | none => (.error ⟨404, "Patient introuvable"⟩, some store)
      | some _ =>
        let res := insertPregnancy store payload
        (.ok res.1, some res.2)
    else (.error ⟨400, "patient_id invalide"⟩, some store)

/-- Full request pipeline of POST /pregnancies. -/
def handleCreatePregnancy (db : Option Store) (raw : RawPregnancy) :
    Except HTTPError String × Option Store :=
  match validatePregnancy raw with
  | .error e => (.error ⟨422, e⟩, db)
  | .ok payload => create_pregnancy db payload

/-- Pipeline step markers for the visit admission: schema validation, the
referential integrity check against the pregnancy collection, persistence. -/
inductive Step where
  | validation : Step
  | integrityCheck : Step
  | persist : Step
deriving DecidableEq

/-- src/main.py lines 145-157, endpoint body of POST /visits: ensure_db, then
parse pregnancy_id and find_one on the pregnancy collection (400 when
malformed, 404 when absent), then insert.  The third component records which
pipeline steps ran inside the endpoint body. -/
def create_visit (db : Option Store) (payload : Visit) :
    Except HTTPError String × Option Store × List Step :=
  match db with
  | none => (.error dbUnavailable, none, [])
  | some store =>
    if isValidObjectId payload.pregnancy_id then
      match findPregnancy store (objectIdNorm payload.pregnancy_id) with
      | none => (.error ⟨404, "Grossesse introuvable"⟩, some store, [Step.integrityCheck])
      | some _ =>
        let res := insertVisit store payload
        (.ok res.1, some res.2, [Step.integrityCheck, Step.persist])
    else (.error ⟨400, "pregnancy_id invalide"⟩, some store, [Step.integrityCheck])

/-- Full request pipeline of POST /visits, with the step trace. -/
def handleCreateVisit (db : Option Store) (raw : RawVisit) (today : PyDate) :
    Except HTTPError String × Option Store × List Step :=
  match validateVisit raw today with
  | .error e => (.error ⟨422, e⟩, db, [Step.validation])
  | .ok payload =>
    let res := create_visit db payload
    (res.1, res.2.1, Step.validation :: res.2.2)

/-- src/main.py lines 174-178, endpoint body of POST /appointments: ensure_db
then insert, with no referential check. -/
def create_appointment (db : Option Store) (payload : Appointment) :
    Except HTTPError String × Option Store :=
  match db with
  | none => (.error dbUnavailable, none)
  | some store =>
    let res := insertAppointment store payload
    (.ok res.1, some res.2)

/-- Full request pipeline of POST /appointments. -/
def handleCreateAppointment (db : Option Store) (raw : RawAppointment) :
    Except HTTPError String × Option Store :=
  match validateAppointment raw with
  | .error e => (.error ⟨422, e⟩, db)
  | .ok payload => create_appointment db payload

/-- src/main.py lines 185-189, endpoint body of POST /alerts: ensure_db then
insert, with no referential check. -/
def create_alert (db : Option Store) (payload : Alert) :
    Except HTTPError String × Option Store :=
  match db with
  | none => (.error dbUnavailable, none)
  | some store =>
    let res := insertAlert store payload
    (.ok res.1, some res.2)

/-- Full request pipeline of POST /alerts. -/
def handleCreateAlert (db : Option Store) (raw : RawAlert) :
    Except HTTPError String × Option Store :=
  match validateAlert raw with
  | .error e => (.error ⟨422, e⟩, db)
  | .ok payload => create_alert db payload

/-- The due-date month test of src/main.py lines 209-214: an expected_due_date
is counted when present with the same year and month as today. -/
def inMonth (today : PyDate) (p : Pregnancy) : Bool :=
  match p.expected_due_date with
  | some edd => edd.year == today.year && edd.month == today.month
  | none => false

/-- src/main.py lines 204-214: the pregnancy collection is read with a limit
of 200 documents and the matching expected_due_date values are counted. -/
def due_this_month (docs : List (String × Pregnancy)) (today : PyDate) : Nat :=
  let recent := docs.take 200
  if recent.isEmpty then 0 else recent.countP (fun d => inMonth today d.2)

/-- The count helper of src/main.py lines 198-202: a failing count_documents
driver call is turned into 0. -/
def countOr0 (r : Except String Nat) : Nat :=
  match r with
  | .ok n => n
  | .error _ => 0

/-- The response shape of GET /stats (src/main.py lines 220-228). -/
structure StatsReport where
  patients : Nat
  pregnancies : Nat
  visits : Nat
  appointments : Nat
  alerts : Nat
  due_this_month : Nat
  facilities_by_region : List (Option String × Nat)
deriving DecidableEq

/-- src/main.py lines 195-228, GET /stats after ensure_db.  The five
count_documents driver results arrive as Except values (the driver call may
raise), the pregnancy documents as returned by the limited find, today as the
server's wall-clock date, and the facility aggregation as the presence flag
of the facility collection together with the grouped counts. -/
def get_stats (cPat cPreg cVis cApp cAl : Except String Nat)
    (pregDocs : List (String × Pregnancy)) (today : PyDate)
    (facilityPresent : Bool) (regions : List (Option String × Nat)) : StatsReport :=
  { patients := countOr0 cPat, pregnancies := countOr0 cPreg, visits := countOr0 cVis,
    appointments := countOr0 cApp, alerts := countOr0 cAl,
    due_this_month := due_this_month pregDocs today,
    facilities_by_region := if facilityPresent then regions else [] }

/-- An empty store, as after connecting to a fresh database. -/
def store0 : Store := ⟨[], [], [], [], [], 0⟩

/-- A Pregnancy body whose patient_id is a well-formed ObjectId string. -/
def rawPreg404 : RawPregnancy :=
  ⟨.val "0123456789abcdef01234567", .absent, .absent, .absent, .absent, .absent, .absent⟩

/-- The validated form of rawPreg404. -/
def preg404 : Pregnancy :=
  ⟨"0123456789abcdef01234567", none, none, some 0, some 1, "faible", "en_cours"⟩

/-- A Pregnancy body whose patient_id is not a well-formed ObjectId string. -/
def rawPreg400 : RawPregnancy :=
  ⟨.val "not-a-valid-objectid", .absent, .absent, .absent, .absent, .absent, .absent⟩

/-- The validated form of rawPreg400. -/
def preg400 : Pregnancy :=
  ⟨"not-a-valid-objectid", none, none, some 0, some 1, "faible", "en_cours"⟩

/-- A valid Patient body with no matergui_id supplied. -/
def rawPatientNoMid : RawPatient :=
  ⟨.absent, .val "Awa", .val "Bah", .absent, .absent, .absent, .absent, .absent, .absent,
   .absent⟩

/-- The validated form of rawPatientNoMid. -/
def patientNoMid : Patient := ⟨none, "Awa", "Bah", none, none, none, none, none, none, none⟩

/-- A valid Patient body whose matergui_id is present but the empty string. -/
def rawPatientEmptyMid : RawPatient :=
  ⟨.val "", .val "Awa", .val "Bah", .absent, .absent, .absent, .absent, .absent, .absent,
   .absent⟩

/-- The validated form of rawPatientEmptyMid. -/
def patientEmptyMid : Patient :=
  ⟨some "", "Awa", "Bah", none, none, none, none, none, none, none⟩

/-- An invalid Patient body: the required first_name is missing. -/
def rawPatientBad : RawPatient :=
  ⟨.absent, .absent, .absent, .absent, .absent, .absent, .absent, .absent, .absent, .absent⟩

/-- A Visit body with a systolic blood pressure of 400, outside 50-250. -/
def rawVisitBad : RawVisit :=
  ⟨.val "x", .absent, .val 400, .absent, .absent, .absent, .absent, .absent, .absent, .absent⟩

/-- A valid Visit body with no vitals. -/
def rawVisitOk : RawVisit :=
  ⟨.val "x", .absent, .absent, .absent, .absent, .absent, .absent, .absent, .absent, .absent⟩

/-- The validated form of rawVisitOk on 2024-01-01. -/
def visitOk : Visit := ⟨"x", ⟨2024, 1, 1⟩, none, none, none, none, none, none, none, none⟩

/-- A valid Appointment body. -/
def rawAppointmentOk : RawAppointment :=
  ⟨.val "x", .val ⟨⟨2024, 1, 1⟩, 9, 0, 0⟩, .absent, .absent⟩

/-- The validated form of rawAppointmentOk. -/
def appointmentOk : Appointment := ⟨"x", ⟨⟨2024, 1, 1⟩, 9, 0, 0⟩, none, "planifie"⟩

/-- An Alert body whose message is the empty string. -/
def rawAlertEmptyMsg : RawAlert := ⟨.val "x", .absent, .val "", .absent⟩

/-- The validated form of rawAlertEmptyMsg: admitted with an empty message. -/
def alertEmptyMsg : Alert := ⟨"x", "rappel", "", none⟩

/-- An Alert body whose type is outside the enumerated set. -/
def rawAlertBadType : RawAlert := ⟨.val "x", .val "bogus", .val "m", .absent⟩

/-- A valid Alert body with a non-empty message. -/
def rawAlertOk : RawAlert := ⟨.val "x", .absent, .val "venir au centre", .absent⟩

/-- The validated form of rawAlertOk. -/
def alertOk : Alert := ⟨"x", "rappel", "venir au centre", none⟩

/-- A stored patient document. -/
def patientStored : Patient :=
  ⟨some "MGU-20240101-000001", "Fanta", "Diallo", none, none, none, none, none, none, none⟩

/-- A store holding exactly one patient document. -/
def storeWithPatient : Store :=
  ⟨[("0123456789abcdef01234567", patientStored)], [], [], [], [], 1⟩

/-- A Pregnancy body referencing the stored patient with an explicitly null
parity. -/
def rawPregNullParity : RawPregnancy :=
  ⟨.val "0123456789abcdef01234567", .absent, .absent, .null, .absent, .absent, .absent⟩

/-- The validated form of rawPregNullParity: parity is None. -/
def pregNullParity : Pregnancy :=
  ⟨"0123456789abcdef01234567", none, none, none, some 1, "faible", "en_cours"⟩

/-- A stored pregnancy document due in May 2024. -/
def pregMay2024 : Pregnancy := ⟨"x", none, some ⟨2024, 5, 10⟩, some 0, some 1, "faible", "en_cours"⟩

/-- 201 stored pregnancy documents, all due in May 2024: one more than the
limit of the stats query. -/
def manyPregs : List (String × Pregnancy) := List.replicate 201 ("x", pregMay2024)

/-- The eight characters of the generated identifier after the MGU marker. -/
def mguDateSeg (s : String) : String := String.mk ((s.data.drop 4).take 8)

/-- The six characters of the generated identifier after the second separator. -/
def mguRandSeg (s : String) : String := String.mk (s.data.drop 13)

/-- Shape check for a generated identifier: the three-letter marker and a
separator, eight decimal digits, a separator, six decimal digits. -/
def mguPattern (s : String) : Bool :=
  match s.data with
  | 'M' :: 'G' :: 'U' :: '-' :: rest =>
    match rest.drop 8 with
    | '-' :: tail => rest.length == 15 && (rest.take 8).all Char.isDigit && tail.all Char.isDigit
    | _ => false
  | _ => false

/-- The out-of-range hypothesis of the vitals claim: some vital is present
with a value outside its declared range. -/
def vitalOutOfRange (raw : RawVisit) : Prop :=
  (∃ n, raw.blood_pressure_systolic = PField.val n ∧ (n < 50 ∨ 250 < n)) ∨
  (∃ n, raw.blood_pressure_diastolic = PField.val n ∧ (n < 30 ∨ 150 < n)) ∨
  (∃ q, raw.weight_kg = PField.val q ∧ (q < 20 ∨ 250 < q)) ∨
  (∃ q, raw.fundal_height_cm = PField.val q ∧ (q < 0 ∨ 60 < q)) ∨
  (∃ n, raw.foetal_heart_rate = PField.val n ∧ (n < 60 ∨ 200 < n))

/-- Bind of Except over an ok value reduces to the continuation. -/
theorem ok_bind {α β : Type} (a : α) (f : α → Except String β) :
    (Except.ok a >>= f) = f a := rfl

/-- Bind of Except over an error propagates the error. -/
theorem error_bind {α β : Type} (e : String) (f : α → Except String β) :
    ((Except.error e : Except String α) >>= f) = Except.error e := rfl

/-- An ok result of a bind factors through an ok first component. -/
theorem ebind_ok {α β : Type} {x : Except String α} {f : α → Except String β} {b : β}
    (h : x >>= f = Except.ok b) : ∃ a, x = Except.ok a ∧ f a = Except.ok b := by
  cases x with
  | error e => exact absurd h (by rw [error_bind]; exact fun hc => Except.noConfusion hc)
  | ok a => exact ⟨a, rfl, by rwa [ok_bind] at h⟩

/-- Every character produced by digitChar is a decimal digit. -/
theorem digitChar_isDigit (n : Nat) : (digitChar n).isDigit = true := by
  unfold digitChar
  have h : n % 10 < 10 := Nat.mod_lt _ (by decide)
  revert h
  generalize n % 10 = k
  intro h
  interval_cases k <;> decide

/-- The character list of a generated identifier, fully unfolded. -/
theorem generate_data (t : PyDate) (r : Nat) :
    (generate_matergui_id t r).data =
      'M' :: 'G' :: 'U' :: '-' ::
      digitChar (t.year / 1000) :: digitChar (t.year / 100) :: digitChar (t.year / 10) ::
      digitChar t.year ::
      digitChar (t.month / 10) :: digitChar t.month ::
      digitChar (t.day / 10) :: digitChar t.day ::
      '-' :: digitChar (r / 100000) :: digitChar (r / 10000) :: digitChar (r / 1000) ::
      digitChar (r / 100) :: digitChar (r / 10) :: digitChar r :: [] := rfl

/-- Every generated identifier matches the MGU shape. -/
theorem mguPattern_generate (t : PyDate) (r : Nat) :
    mguPattern (generate_matergui_id t r) = true := by
  simp [mguPattern, generate_data, digitChar_isDigit]

/-- The eight-character segment of a generated identifier is the formatted date. -/
theorem mguDateSeg_generate (t : PyDate) (r : Nat) :
    mguDateSeg (generate_matergui_id t r) = formatYYYYMMDD t := rfl

/-- The six-character segment of a generated identifier is the padded random draw. -/
theorem mguRandSeg_generate (t : PyDate) (r : Nat) :
    mguRandSeg (generate_matergui_id t r) = fmt6 r := rfl

/-- An ok result of vOptIntGe satisfies the lower bound whenever it carries a
value, and an absent field yields the default. -/
theorem vOptIntGe_ok {name : String} {dflt lo : Int} {f : PField Int} {o : Option Int}
    (hd : lo ≤ dflt) (h : vOptIntGe name dflt lo f = Except.ok o) :
    (∀ v, o = some v → lo ≤ v) ∧ (f = PField.absent → o = some dflt) := by
  cases f with
  | absent =>
    simp only [vOptIntGe, Except.ok.injEq] at h
    subst h
    constructor
    · intro v hv
      have hv2 : dflt = v := by simpa using hv
      omega
    · intro _; rfl
  | null =>
    simp only [vOptIntGe, Except.ok.injEq] at h
    subst h
    constructor
    · intro v hv; cases hv
    · intro hc; cases hc
  | val n =>
    simp only [vOptIntGe] at h
    split at h
    · simp only [Except.ok.injEq] at h
      subst h
      constructor
      · intro v hv
        have hv2 : n = v := by simpa using hv
        omega
      · intro hc; cases hc
    · cases h

/-- An ok result of vOptIntRange on a present value implies the bounds. -/
theorem vOptIntRange_ok_val {name : String} {lo hi n : Int} {o : Option Int}
    (h : vOptIntRange name lo hi (PField.val n) = Except.ok o) : lo ≤ n ∧ n ≤ hi := by
  simp only [vOptIntRange] at h
  split at h
  · assumption
  · cases h

/-- An ok result of vOptRatRange on a present value implies the bounds. -/
theorem vOptRatRange_ok_val {name : String} {lo hi q : Rat} {o : Option Rat}
    (h : vOptRatRange name lo hi (PField.val q) = Except.ok o) : lo ≤ q ∧ q ≤ hi := by
  simp only [vOptRatRange] at h
  split at h
  · assumption
  · cases h

/-- A Visit body that passes validation has all present vitals within range. -/
theorem validateVisit_ok_ranges {raw : RawVisit} {today : PyDate} {v : Visit}
    (hok : validateVisit raw today = Except.ok v) :
    (∀ n, raw.blood_pressure_systolic = PField.val n → 50 ≤ n ∧ n ≤ 250) ∧
    (∀ n, raw.blood_pressure_diastolic = PField.val n → 30 ≤ n ∧ n ≤ 150) ∧
    (∀ q, raw.weight_kg = PField.val q → 20 ≤ q ∧ q ≤ 250) ∧
    (∀ q, raw.fundal_height_cm = PField.val q → 0 ≤ q ∧ q ≤ 60) ∧
    (∀ n, raw.foetal_heart_rate = PField.val n → 60 ≤ n ∧ n ≤ 200) := by
  unfold validateVisit at hok
  obtain ⟨pid, h1, hok⟩ := ebind_ok hok
  obtain ⟨vd, h2, hok⟩ := ebind_ok hok
  obtain ⟨sys, h3, hok⟩ := ebind_ok hok
  obtain ⟨dia, h4, hok⟩ := ebind_ok hok
  obtain ⟨wkg, h5, hok⟩ := ebind_ok hok
  obtain ⟨fh, h6, hok⟩ := ebind_ok hok
  obtain ⟨fhr, h7, hok⟩ := ebind_ok hok
  refine ⟨fun n hn => ?_, fun n hn => ?_, fun q hq => ?_, fun q hq => ?_, fun n hn => ?_⟩
  · rw [hn] at h3; exact vOptIntRange_ok_val h3
  · rw [hn] at h4; exact vOptIntRange_ok_val h4
  · rw [hq] at h5; exact vOptRatRange_ok_val h5
  · rw [hq] at h6; exact vOptRatRange_ok_val h6
  · rw [hn] at h7; exact vOptIntRange_ok_val h7

/-- C1: for every Pregnancy payload whose patient_id is a well-formed store
identifier resolving to no stored Patient document, POST /pregnancies fails
with a 404 not-found error and the store is unchanged. -/
theorem C1_unresolved_patient_not_found (store : Store) (raw : RawPregnancy) (p : Pregnancy)
    (hok : validatePregnancy raw = Except.ok p)
    (hwf : isValidObjectId p.patient_id = true)
    (hmiss : findPatient store (objectIdNorm p.patient_id) = none) :
    handleCreatePregnancy (some store) raw
      = (Except.error ⟨404, "Patient introuvable"⟩, some store) := by
  simp [handleCreatePregnancy, hok, create_pregnancy, hwf, hmiss]

/-- Witness for C1 at a concrete payload and the empty store. -/
theorem C1_witness :
    handleCreatePregnancy (some store0) rawPreg404
      = (Except.error ⟨404, "Patient introuvable"⟩, some store0) :=
  C1_unresolved_patient_not_found store0 rawPreg404 preg404 rfl rfl rfl

/-- C2: for every Pregnancy payload whose patient_id is not a well-formed
store identifier, POST /pregnancies fails with a 400 invalid-reference error,
not a 404, and the store is unchanged. -/
theorem C2_malformed_patient_id_bad_request (store : Store) (raw : RawPregnancy) (p : Pregnancy)
    (hok : validatePregnancy raw = Except.ok p)
    (hwf : isValidObjectId p.patient_id = false) :
    handleCreatePregnancy (some store) raw
      = (Except.error ⟨400, "patient_id invalide"⟩, some store) ∧
    respStatus (handleCreatePregnancy (some store) raw).1 ≠ 404 := by
  have h : handleCreatePregnancy (some store) raw
      = (Except.error ⟨400, "patient_id invalide"⟩, some store) := by
    simp [handleCreatePregnancy, hok, create_pregnancy, hwf]
  exact ⟨h, by rw [h]; simp [respStatus]⟩

/-- Witness for C2 at a concrete malformed identifier. -/
theorem C2_witness :
    handleCreatePregnancy (some store0) rawPreg400
      = (Except.error ⟨400, "patient_id invalide"⟩, some store0) ∧
    respStatus (handleCreatePregnancy (some store0) rawPreg400).1 ≠ 404 :=
  C2_malformed_patient_id_bad_request store0 rawPreg400 preg400 rfl rfl

/-- C3: for every valid Patient payload without a supplied public identifier,
the identifier assigned by POST /patients is the generated one, which matches
the MGU pattern, carries the current UTC date formatted YYYYMMDD as its
eight-digit segment, and a value below one million zero-padded to six digits
as its six-digit segment. -/
theorem C3_generated_id_format (store : Store) (raw : RawPatient) (p : Patient)
    (today : PyDate) (r : Nat)
    (hok : validatePatient raw = Except.ok p)
    (hnone : p.matergui_id = none)
    (hy : 1000 ≤ today.year ∧ today.year ≤ 9999)
    (hm : 1 ≤ today.month ∧ today.month ≤ 12)
    (hd : 1 ≤ today.day ∧ today.day ≤ 31)
    (hr : r < 1000000) :
    (handleCreatePatient (some store) raw today r).1
      = Except.ok (newStorageId store, generate_matergui_id today r) ∧
    mguPattern (generate_matergui_id today r) = true ∧
    mguDateSeg (generate_matergui_id today r) = formatYYYYMMDD today ∧
    mguRandSeg (generate_matergui_id today r) = fmt6 r := by
  refine ⟨?_, mguPattern_generate today r, mguDateSeg_generate today r,
    mguRandSeg_generate today r⟩
  simp [handleCreatePatient, hok, create_patient, hnone, insertPatient]

/-- Witness for C3 on 2024-03-15 with random draw 42. -/
theorem C3_witness :
    (handleCreatePatient (some store0) rawPatientNoMid ⟨2024, 3, 15⟩ 42).1
      = Except.ok (newStorageId store0, generate_matergui_id ⟨2024, 3, 15⟩ 42) ∧
    mguPattern (generate_matergui_id ⟨2024, 3, 15⟩ 42) = true ∧
    mguDateSeg (generate_matergui_id ⟨2024, 3, 15⟩ 42) = formatYYYYMMDD ⟨2024, 3, 15⟩ ∧
    mguRandSeg (generate_matergui_id ⟨2024, 3, 15⟩ 42) = fmt6 42 :=
  C3_generated_id_format store0 rawPatientNoMid patientNoMid ⟨2024, 3, 15⟩ 42 rfl rfl
    (by decide) (by decide) (by decide) (by decide)

/-- C4: for every Visit payload with a vital outside its stated range,
POST /visits answers a 422 validation error, the referential integrity check
never runs, and the store is unchanged. -/
theorem C4_out_of_range_vitals_rejected (db : Option Store) (raw : RawVisit) (today : PyDate)
    (h : vitalOutOfRange raw) :
    ∃ e, handleCreateVisit db raw today = (Except.error ⟨422, e⟩, db, [Step.validation]) := by
  cases hv : validateVisit raw today with
  | error e => exact ⟨e, by simp [handleCreateVisit, hv]⟩
  | ok v =>
    exfalso
    obtain ⟨hs, hdia, hw, hf, hr⟩ := validateVisit_ok_ranges hv
    rcases h with ⟨n, hn, hb⟩ | ⟨n, hn, hb⟩ | ⟨q, hq, hb⟩ | ⟨q, hq, hb⟩ | ⟨n, hn, hb⟩
    · have := hs n hn; omega
    · have := hdia n hn; omega
    · obtain ⟨ha1, ha2⟩ := hw q hq
      rcases hb with hb | hb
      · exact absurd hb (not_lt.mpr ha1)
      · exact absurd hb (not_lt.mpr ha2)
    · obtain ⟨ha1, ha2⟩ := hf q hq
      rcases hb with hb | hb
      · exact absurd hb (not_lt.mpr ha1)
      · exact absurd hb (not_lt.mpr ha2)
    · have := hr n hn; omega

/-- Witness for C4 at a systolic blood pressure of 400. -/
theorem C4_witness :
    vitalOutOfRange rawVisitBad ∧
    ∃ e, handleCreateVisit (some store0) rawVisitBad ⟨2024, 1, 1⟩
      = (Except.error ⟨422, e⟩, some store0, [Step.validation]) :=
  ⟨Or.inl ⟨400, rfl, Or.inr (by decide)⟩,
   C4_out_of_range_vitals_rejected (some store0) rawVisitBad ⟨2024, 1, 1⟩
     (Or.inl ⟨400, rfl, Or.inr (by decide)⟩)⟩

/-- C5 counterexample: with the store connection unset, a POST /patients
request with an invalid body is answered 422 by the framework's body
validation, not 500; the store-availability check does not run first. -/
theorem C5_cex :
    respStatus (handleCreatePatient none rawPatientBad ⟨2024, 1, 1⟩ 0).1 = 422 ∧
    respStatus (handleCreatePatient none rawPatientBad ⟨2024, 1, 1⟩ 0).1 ≠ 500 :=
  ⟨rfl, by decide⟩

/-- C5 amended: every mutating endpoint answers 500 when the store connection
is unset and the body is valid — the check is the first step of the endpoint
body — but framework body validation precedes it, so an invalid body is
answered 422 even with the store unset. -/
theorem C5_db_check_after_validation :
    (∀ (raw : RawPatient) (p : Patient) (today : PyDate) (r : Nat),
        validatePatient raw = Except.ok p →
        handleCreatePatient none raw today r = (Except.error dbUnavailable, none)) ∧
    (∀ (raw : RawPregnancy) (p : Pregnancy),
        validatePregnancy raw = Except.ok p →
        handleCreatePregnancy none raw = (Except.error dbUnavailable, none)) ∧
    (∀ (raw : RawVisit) (v : Visit) (today : PyDate),
        validateVisit raw today = Except.ok v →
        handleCreateVisit none raw today
          = (Except.error dbUnavailable, none, [Step.validation])) ∧
    (∀ (raw : RawAppointment) (a : Appointment),
        validateAppointment raw = Except.ok a →
        handleCreateAppointment none raw = (Except.error dbUnavailable, none)) ∧
    (∀ (raw : RawAlert) (a : Alert),
        validateAlert raw = Except.ok a →
        handleCreateAlert none raw = (Except.error dbUnavailable, none)) ∧
    (∀ (today : PyDate) (r : Nat),
        handleCreatePatient none rawPatientBad today r
          = (Except.error ⟨422, "first_name: field required"⟩, none)) := by
  refine ⟨?_, ?_, ?_, ?_, ?_, ?_⟩
  · intro raw p today r hok; simp [handleCreatePatient, hok, create_patient]
  · intro raw p hok; simp [handleCreatePregnancy, hok, create_pregnancy]
  · intro raw v today hok; simp [handleCreateVisit, hok, create_visit]
  · intro raw a hok; simp [handleCreateAppointment, hok, create_appointment]
  · intro raw a hok; simp [handleCreateAlert, hok, create_alert]
  · intro today r; rfl

/-- Witness for C5 amended: the five endpoints at concrete valid bodies. -/
theorem C5_witness :
    handleCreatePatient none rawPatientNoMid ⟨2024, 1, 1⟩ 0 = (Except.error dbUnavailable, none) ∧
    handleCreatePregnancy none rawPreg404 = (Except.error dbUnavailable, none) ∧
    handleCreateVisit none rawVisitOk ⟨2024, 1, 1⟩
      = (Except.error dbUnavailable, none, [Step.validation]) ∧
    handleCreateAppointment none rawAppointmentOk = (Except.error dbUnavailable, none) ∧
    handleCreateAlert none rawAlertOk = (Except.error dbUnavailable, none) :=
  ⟨C5_db_check_after_validation.1 rawPatientNoMid patientNoMid ⟨2024, 1, 1⟩ 0 rfl,
   C5_db_check_after_validation.2.1 rawPreg404 preg404 rfl,
   C5_db_check_after_validation.2.2.1 rawVisitOk visitOk ⟨2024, 1, 1⟩ rfl,
   C5_db_check_after_validation.2.2.2.1 rawAppointmentOk appointmentOk rfl,
   C5_db_check_after_validation.2.2.2.2.1 rawAlertOk alertOk rfl⟩

/-- C6 counterexample: with 201 stored pregnancies all due in the current
month, GET /stats reports 200 because the lookup is limited to 200 documents,
so the reported value differs from the store-wide count. -/
theorem C6_cex :
    (get_stats (.ok 201) (.ok 201) (.ok 0) (.ok 0) (.ok 0) manyPregs ⟨2024, 5, 1⟩
        false []).due_this_month = 200 ∧
    manyPregs.countP (fun d => inMonth ⟨2024, 5, 1⟩ d.2) = 201 ∧
    (get_stats (.ok 201) (.ok 201) (.ok 0) (.ok 0) (.ok 0) manyPregs ⟨2024, 5, 1⟩
        false []).due_this_month
      ≠ manyPregs.countP (fun d => inMonth ⟨2024, 5, 1⟩ d.2) := by
  refine ⟨?_, ?_, ?_⟩ <;> · set_option maxRecDepth 20000 in decide

/-- C6 amended: due_this_month equals the number of matching documents among
the first 200 pregnancy documents returned by the store. -/
theorem C6_due_this_month_limited (c1 c2 c3 c4 c5 : Except String Nat)
    (docs : List (String × Pregnancy)) (today : PyDate) (fp : Bool)
    (rg : List (Option String × Nat)) :
    (get_stats c1 c2 c3 c4 c5 docs today fp rg).due_this_month
      = (docs.take 200).countP (fun d => inMonth today d.2) := by
  show due_this_month docs today = _
  unfold due_this_month
  rcases h : docs.take 200 with _ | ⟨a, l⟩ <;> simp [h]

/-- C7 counterexample: POST /alerts admits and persists an Alert whose message
is the empty string; the admitted message is empty. -/
theorem C7_cex :
    handleCreateAlert (some store0) rawAlertEmptyMsg
      = (Except.ok "0", some { store0 with alert := [("0", alertEmptyMsg)], nextId := 1 }) ∧
    alertEmptyMsg.message = "" := ⟨rfl, rfl⟩

/-- C7 amended: an alert type outside the enumerated set is rejected at
validation, but the message — though required — is admitted unchanged even
when it is the empty string. -/
theorem C7_message_not_checked :
    (∀ (raw : RawAlert) (s : String), raw.type = PField.val s →
        (["urgence", "rappel", "risque"] : List String).contains s = false →
        ∃ e, validateAlert raw = Except.error e) ∧
    (∀ (raw : RawAlert) (a : Alert) (m : String),
        validateAlert raw = Except.ok a → raw.message = PField.val m → a.message = m) ∧
    validateAlert rawAlertEmptyMsg = Except.ok alertEmptyMsg := by
  refine ⟨?_, ?_, rfl⟩
  · intro raw s hty hc
    cases h1 : vRequired (α := String) "patient_id" raw.patient_id with
    | error e => exact ⟨e, by unfold validateAlert; rw [h1, error_bind]⟩
    | ok pid =>
      refine ⟨"type: unexpected literal value", ?_⟩
      simp only [validateAlert, h1, ok_bind, hty, vEnum, hc, error_bind]
      rfl
  · intro raw a m hok hmsg
    unfold validateAlert at hok
    obtain ⟨pid, h1, hok⟩ := ebind_ok hok
    obtain ⟨ty, h2, hok⟩ := ebind_ok hok
    obtain ⟨msg, h3, hok⟩ := ebind_ok hok
    injection hok with h6
    subst h6
    rw [hmsg] at h3
    simp only [vRequired, Except.ok.injEq] at h3
    exact h3.symm

/-- Witness for C7 amended: a rejected out-of-set type and the admitted
empty-message alert. -/
theorem C7_witness :
    (∃ e, validateAlert rawAlertBadType = Except.error e) ∧
    validateAlert rawAlertEmptyMsg = Except.ok alertEmptyMsg :=
  ⟨C7_message_not_checked.1 rawAlertBadType "bogus" rfl (by decide),
   C7_message_not_checked.2.2⟩

/-- C8 counterexample: a Pregnancy payload with an explicitly null parity is
admitted and persisted with parity null, so not every admitted document
carries a numeric parity at least 0. -/
theorem C8_cex :
    handleCreatePregnancy (some storeWithPatient) rawPregNullParity
      = (Except.ok "1",
         some { storeWithPatient with pregnancy := [("1", pregNullParity)], nextId := 2 }) ∧
    pregNullParity.parity = none := ⟨rfl, rfl⟩

/-- C8 amended: an admitted Pregnancy satisfies parity at least 0 and gravida
at least 1 whenever those fields carry a value; an omitted parity defaults to
0 and an omitted gravida to 1; an explicit null is admitted as null. -/
theorem C8_parity_gravida_bounds (raw : RawPregnancy) (p : Pregnancy)
    (hok : validatePregnancy raw = Except.ok p) :
    (∀ v, p.parity = some v → 0 ≤ v) ∧
    (∀ v, p.gravida = some v → 1 ≤ v) ∧
    (raw.parity = PField.absent → p.parity = some 0) ∧
    (raw.gravida = PField.absent → p.gravida = some 1) := by
  unfold validatePregnancy at hok
  obtain ⟨pid, h1, hok⟩ := ebind_ok hok
  obtain ⟨par, h2, hok⟩ := ebind_ok hok
  obtain ⟨grav, h3, hok⟩ := ebind_ok hok
  obtain ⟨risk, h4, hok⟩ := ebind_ok hok
  obtain ⟨st, h5, hok⟩ := ebind_ok hok
  injection hok with h6
  subst h6
  obtain ⟨hp1, hp2⟩ := vOptIntGe_ok (by decide) h2
  obtain ⟨hg1, hg2⟩ := vOptIntGe_ok (by decide) h3
  exact ⟨hp1, hg1, hp2, hg2⟩

/-- Witness for C8 amended: the defaults at a payload omitting both fields. -/
theorem C8_witness : preg404.parity = some 0 ∧ preg404.gravida = some 1 :=
  ⟨(C8_parity_gravida_bounds rawPreg404 preg404 rfl).2.2.1 rfl,
   (C8_parity_gravida_bounds rawPreg404 preg404 rfl).2.2.2 rfl⟩

/-- C9: each per-collection count of GET /stats is computed independently; a
failing count yields zero for that collection and leaves every other field of
the report as it would otherwise be. -/
theorem C9_counts_independent (e : String) (c1 c2 c3 c4 c5 : Except String Nat)
    (docs : List (String × Pregnancy)) (today : PyDate) (fp : Bool)
    (rg : List (Option String × Nat)) :
    get_stats (.error e) c2 c3 c4 c5 docs today fp rg
      = { get_stats c1 c2 c3 c4 c5 docs today fp rg with patients := 0 } ∧
    get_stats c1 (.error e) c3 c4 c5 docs today fp rg
      = { get_stats c1 c2 c3 c4 c5 docs today fp rg with pregnancies := 0 } ∧
    get_stats c1 c2 (.error e) c4 c5 docs today fp rg
      = { get_stats c1 c2 c3 c4 c5 docs today fp rg with visits := 0 } ∧
    get_stats c1 c2 c3 (.error e) c5 docs today fp rg
      = { get_stats c1 c2 c3 c4 c5 docs today fp rg with appointments := 0 } ∧
    get_stats c1 c2 c3 c4 (.error e) docs today fp rg
      = { get_stats c1 c2 c3 c4 c5 docs today fp rg with alerts := 0 } :=
  ⟨rfl, rfl, rfl, rfl, rfl⟩

/-- C10: a Patient payload whose matergui_id is present but empty is treated
as if the identifier were absent — a fresh identifier is generated, persisted
in the stored document, and returned to the caller. -/
theorem C10_empty_public_id_regenerated (store : Store) (raw : RawPatient) (p : Patient)
    (today : PyDate) (r : Nat)
    (hok : validatePatient raw = Except.ok p)
    (hempty : p.matergui_id = some "") :
    handleCreatePatient (some store) raw today r
      = (Except.ok (newStorageId store, generate_matergui_id today r),
         some { store with
                patient := store.patient ++
                  [(newStorageId store,
                    { p with matergui_id := some (generate_matergui_id today r) })],
                nextId := store.nextId + 1 }) ∧
    create_patient (some store) p today r
      = create_patient (some store) { p with matergui_id := none } today r := by
  obtain ⟨mid, fn, ln, dob, ph, ad, ni, fi, ft, fp2⟩ := p
  have hm2 : mid = some "" := hempty
  subst hm2
  constructor
  · simp [handleCreatePatient, hok, create_patient, insertPatient]
  · rfl

/-- Witness for C10 at a concrete payload carrying an empty identifier. -/
theorem C10_witness :
    handleCreatePatient (some store0) rawPatientEmptyMid ⟨2024, 3, 15⟩ 7
      = (Except.ok (newStorageId store0, generate_matergui_id ⟨2024, 3, 15⟩ 7),
         some { store0 with
                patient := store0.patient ++
                  [(newStorageId store0,
                    { patientEmptyMid with
                      matergui_id := some (generate_matergui_id ⟨2024, 3, 15⟩ 7) })],
                nextId := store0.nextId + 1 }) ∧
    create_patient (some store0) patientEmptyMid ⟨2024, 3, 15⟩ 7
      = create_patient (some store0) { patientEmptyMid with matergui_id := none }
          ⟨2024, 3, 15⟩ 7 :=
  C10_empty_public_id_regenerated store0 rawPatientEmptyMid patientEmptyMid
    ⟨2024, 3, 15⟩ 7 rfl rfl

end MaterGui
